import Mathlib

/-!
Verification of the ZooMS species-identification web app (`src/web_app.py`)
against its natural-language specification.

The repository's source file `web_app.py` is the presentation/glue layer; it
delegates the core loading, parsing and matching work to
`casi.scripts.compare_score` (`load_theoretical_data`, `read_exp_pmf`,
`process_all_species`), which is part of this system but whose source is not
in the repository.  Those core routines are therefore modelled from the
specification (their doc comments say so); everything defined from
`web_app.py` itself follows that file directly.

Masses and tolerances are modelled as rationals (`ℚ`); the claims under
study concern ordering, filtering and counting, not floating-point rounding.
-/

namespace SifWebApp

/-- One line of a tabular input file after low-level parsing: either a row
whose two columns parsed as numbers (mass, intensity), or a malformed /
non-numeric row that the parsers drop. -/
inductive RawRow where
  | valid (mass intensity : ℚ)
  | malformed
deriving DecidableEq, Repr

/-- An experimental peak: `{mass, intensity}` as in the spec's data model. -/
structure ExperimentalPeak where
  mass : ℚ
  intensity : ℚ
deriving DecidableEq, Repr

/-- A theoretical entry: species identifier plus the species' list of
theoretical peptide masses. -/
structure TheoreticalEntry where
  species : String
  masses : List ℚ
deriving DecidableEq, Repr

/-- Inclusive mass-window membership test, `min ≤ m ≤ max`, used identically
for theoretical and experimental masses. -/
def inRange (r : ℚ × ℚ) (m : ℚ) : Bool :=
  decide (r.1 ≤ m) && decide (m ≤ r.2)

/-- Extract the numeric mass of a raw row, if the row parsed. -/
def parseRow (row : RawRow) : Option ExperimentalPeak :=
  match row with
  | .valid m i => some ⟨m, i⟩
  | .malformed => none

/-- The rows of a tab-separated stream that parsed as numeric
(mass, intensity) pairs, in file order. -/
def parsedRows (rows : List RawRow) : List ExperimentalPeak :=
  rows.filterMap parseRow

/-- Modelled from the spec: `casi.scripts.compare_score.read_exp_pmf` is not
under `src/`.  Per spec section 4.2, it parses a tab-delimited stream of
(mass, intensity) rows, drops non-numeric or incomplete rows, restricts the
result to the mass window, and treats a file with zero usable rows as a
reportable failure distinct from a silent empty result. -/
def read_exp_pmf (rows : List RawRow) (r : ℚ × ℚ) :
    Except String (List ExperimentalPeak) :=
  let parsed := parsedRows rows
  if parsed = [] then
    .error "no parseable rows"
  else
    .ok (parsed.filter fun p => inRange r p.mass)

/-- Modelled from the spec: `casi.scripts.compare_score.load_theoretical_data`
is not under `src/`.  Per spec section 4.1, it enumerates the reference files
of a directory (one file = one species), parses each into a numeric mass
column with malformed rows dropped, discards masses outside the window, and
returns one `TheoreticalEntry` per file, the species identifier derived from
the file name.  A directory is modelled as its list of (file-name, rows)
pairs. -/
def load_theoretical_core (files : List (String × List RawRow)) (r : ℚ × ℚ) :
    List TheoreticalEntry :=
  files.map fun f =>
    { species := f.1
      masses := ((parsedRows f.2).map (fun p => p.mass)).filter
        (fun m => inRange r m) }

/-- From `web_app.py` (`load_theoretical_data`, lines 77-95): the caching
wrapper returns `None` when the folder does not exist, and otherwise defers
to the core loader.  A missing directory is modelled as `none`. -/
def load_theoretical_data (dir : Option (List (String × List RawRow)))
    (r : ℚ × ℚ) : Option (List TheoreticalEntry) :=
  match dir with
  | none => none
  | some files => some (load_theoretical_core files r)

/-- A seekable uploaded file: its contents (as raw rows) and the current
stream position. -/
structure UploadedFile where
  contents : List RawRow
  pos : Nat
deriving DecidableEq, Repr

/-- Model of `uploaded_file.seek(0)`: rewind the stream to position 0. -/
def seekStart (f : UploadedFile) : UploadedFile :=
  { f with pos := 0 }

/-- Model of a full read of the stream: yields the rows from the current
position to the end and leaves the position at the end. -/
def readAll (f : UploadedFile) : List RawRow × UploadedFile :=
  (f.contents.drop f.pos, { f with pos := f.contents.length })

/-- From `web_app.py` (`read_experimental_pmf`, lines 97-119): rewinds the
uploaded file to position 0, parses it via `compare_score.read_exp_pmf`, and
returns the filtered peak table together with `total_peaks = len(df)`.  The
second component is the file object's state after the call. -/
def read_experimental_pmf (f : UploadedFile) (r : ℚ × ℚ) :
    Except String (List ExperimentalPeak × Nat) × UploadedFile :=
  let f0 := seekStart f
  let rows := (readAll f0).1
  let f1 := (readAll f0).2
  match read_exp_pmf rows r with
  | .error e => (.error e, f1)
  | .ok df => (.ok (df, df.length), f1)

/-- Does an experimental peak match the species: is some theoretical mass
within `tol` (inclusive) of the peak's mass? -/
def peakMatches (masses : List ℚ) (tol : ℚ) (p : ExperimentalPeak) : Bool :=
  masses.any fun t => decide (|p.mass - t| ≤ tol)

/-- Match count of one species: the number of experimental peaks that are
within tolerance of at least one of its theoretical masses (each experimental
peak contributes at most one). -/
def matchCount (masses : List ℚ) (peaks : List ExperimentalPeak) (tol : ℚ) :
    Nat :=
  peaks.countP (peakMatches masses tol)

/-- One row of the result table: species identifier, match count, and the
total experimental peak count carried alongside for normalisation. -/
structure MatchRow where
  species : String
  count : Nat
  totalPeaks : Nat
deriving DecidableEq, Repr

/-- Descending-by-match-count comparison used to rank the result rows. -/
def rowLE (a b : MatchRow) : Bool :=
  decide (b.count ≤ a.count)

/-- Modelled from the spec: `casi.scripts.compare_score.process_all_species`
is not under `src/`.  Per spec section 4.3, it produces one row per species
holding the match count and the total peak count, sorted descending by match
count with a stable sort (ties keep insertion order).  The second value the
original returns is discarded by the caller in `web_app.py` and is not
modelled. -/
def process_all_species (entries : List TheoreticalEntry)
    (peaks : List ExperimentalPeak) (tol : ℚ) (total : Nat) : List MatchRow :=
  (entries.map fun e =>
    { species := e.species
      count := matchCount e.masses peaks tol
      totalPeaks := total }).mergeSort rowLE

/-- From `web_app.py` (`run_species_comparison`, lines 121-146): forwards to
`compare_score.process_all_species` and returns the sorted result table. -/
def run_species_comparison (entries : List TheoreticalEntry)
    (peaks : List ExperimentalPeak) (tol : ℚ) (total : Nat) : List MatchRow :=
  process_all_species entries peaks tol total

/-- Header cells of the exported CSV. -/
def csvHeader : List String :=
  ["species", "matches", "totalPeaks"]

/-- The cells of one CSV data line for a result row. -/
def rowCells (r : MatchRow) : List String :=
  [r.species, toString r.count, toString r.totalPeaks]

/-- Model of `DataFrame.to_csv`: a list of lines, each a list of cells.  With
`withIndex = true` an index column (the row's position) is prepended to every
data line and an empty cell to the header; `web_app.py` calls it with
`index=False`. -/
def to_csv (withIndex : Bool) (rows : List MatchRow) : List (List String) :=
  (if withIndex then "" :: csvHeader else csvHeader) ::
    rows.enum.map fun ir =>
      if withIndex then toString ir.1 :: rowCells ir.2 else rowCells ir.2

/-- From `web_app.py` (`display_results`, lines 148-173): shows
`results_df.head(20)` as the on-screen table and offers
`results_df.to_csv(index=False)` for download.  Returns the pair
(displayed rows, exported CSV lines). -/
def display_results (rows : List MatchRow) :
    List MatchRow × List (List String) :=
  (rows.take 20, to_csv false rows)

/-- Outcome of one run of the app's main flow, as observed by the user. -/
inductive AppOutcome where
  | warnMissingDb
  | errorNoCsv
  | awaitingUpload
  | results (shown : List MatchRow) (csv : List (List String))
      (detectedPeaks : Nat)
  | analysisError (msg : String)
deriving DecidableEq, Repr

/-- From `web_app.py` (`main`, lines 175-223): reads the sidebar
configuration (database directory, mass range, threshold — returned by
`get_sidebar_config` without any validation), warns and stops when the
directory does not exist, errors when the loaded list is empty, waits when no
file is uploaded, and otherwise parses the upload, runs the comparison and
displays the results; exceptions raised while processing are caught and shown
as an analysis error. -/
def main_app (dir : Option (List (String × List RawRow))) (massRange : ℚ × ℚ)
    (threshold : ℚ) (uploaded : Option UploadedFile) : AppOutcome :=
  match dir with
  | none => .warnMissingDb
  | some files =>
    match load_theoretical_data (some files) massRange with
    | none => .errorNoCsv
    | some theor =>
      if theor = [] then .errorNoCsv
      else
        match uploaded with
        | none => .awaitingUpload
        | some f =>
          match (read_experimental_pmf f massRange).1 with
          | .error e => .analysisError e
          | .ok dfn =>
            let res := run_species_comparison theor dfn.1 threshold dfn.2
            .results (display_results res).1 (display_results res).2 dfn.2

/-! ### Shared helper lemmas -/

theorem rowLE_trans : ∀ a b c : MatchRow,
    rowLE a b = true → rowLE b c = true → rowLE a c = true := by
  intro a b c hab hbc
  simp only [rowLE, decide_eq_true_eq] at *
  exact le_trans hbc hab

theorem rowLE_total : ∀ a b : MatchRow, (rowLE a b || rowLE b a) = true := by
  intro a b
  simp only [rowLE, Bool.or_eq_true, decide_eq_true_eq]
  exact Nat.le_total b.count a.count

theorem process_all_species_perm (entries : List TheoreticalEntry)
    (peaks : List ExperimentalPeak) (tol : ℚ) (total : Nat) :
    (process_all_species entries peaks tol total).Perm
      (entries.map fun e =>
        { species := e.species
          count := matchCount e.masses peaks tol
          totalPeaks := total }) :=
  List.mergeSort_perm _ _

theorem process_all_species_sorted (entries : List TheoreticalEntry)
    (peaks : List ExperimentalPeak) (tol : ℚ) (total : Nat) :
    List.Pairwise (fun a b : MatchRow => b.count ≤ a.count)
      (process_all_species entries peaks tol total) := by
  have h := List.sorted_mergeSort rowLE_trans rowLE_total
    (entries.map fun e =>
      { species := e.species
        count := matchCount e.masses peaks tol
        totalPeaks := total })
  exact h.imp fun hab => of_decide_eq_true hab

theorem process_all_species_species_perm (entries : List TheoreticalEntry)
    (peaks : List ExperimentalPeak) (tol : ℚ) (total : Nat) :
    ((process_all_species entries peaks tol total).map
        (fun r => r.species)).Perm (entries.map fun e => e.species) := by
  have h := (process_all_species_perm entries peaks tol total).map
    (fun r : MatchRow => r.species)
  simpa [List.map_map, Function.comp] using h

/-! ### Claim theorems -/

/-- C1: For every non-empty list of TheoreticalEntry records, an experimental
peak table, a numeric tolerance, and a total peak count, the comparison
returns a ResultTable containing exactly one row per species (the multiset of
species identifiers of the rows equals that of the entries), each row holding
at least the species identifier and its match count, with rows sorted in
descending order of score (match count); the table is non-empty. -/
theorem run_species_comparison_spec (entries : List TheoreticalEntry)
    (peaks : List ExperimentalPeak) (tol : ℚ) (total : Nat)
    (hne : entries ≠ []) :
    ((run_species_comparison entries peaks tol total).map
        (fun r => r.species)).Perm (entries.map fun e => e.species) ∧
    (∀ row ∈ run_species_comparison entries peaks tol total,
      ∃ e ∈ entries, row.species = e.species ∧
        row.count = matchCount e.masses peaks tol ∧ row.totalPeaks = total) ∧
    List.Pairwise (fun a b : MatchRow => b.count ≤ a.count)
      (run_species_comparison entries peaks tol total) ∧
    run_species_comparison entries peaks tol total ≠ [] := by
  refine ⟨process_all_species_species_perm entries peaks tol total, ?_, ?_, ?_⟩
  · intro row hrow
    have hrow2 : row ∈ process_all_species entries peaks tol total := hrow
    rw [(process_all_species_perm entries peaks tol total).mem_iff,
      List.mem_map] at hrow2
    obtain ⟨e, he, rfl⟩ := hrow2
    exact ⟨e, he, rfl, rfl, rfl⟩
  · exact process_all_species_sorted entries peaks tol total
  · intro h
    have hlen := (process_all_species_perm entries peaks tol total).length_eq
    rw [show process_all_species entries peaks tol total
        = run_species_comparison entries peaks tol total from rfl, h,
      List.length_nil, List.length_map] at hlen
    exact hne (List.eq_nil_of_length_eq_zero hlen.symm)

/-- Witness for C1 at the spec's Scenario-A-like input: one species with one
theoretical mass and one matching experimental peak. -/
theorem run_species_comparison_spec_witness :
    (([⟨"X", [1000]⟩] : List TheoreticalEntry) ≠ []) ∧
    (((run_species_comparison [⟨"X", [1000]⟩] [⟨1000, 1⟩] (1/5) 1).map
        (fun r => r.species)).Perm
        (([⟨"X", [1000]⟩] : List TheoreticalEntry).map fun e => e.species) ∧
    (∀ row ∈ run_species_comparison [⟨"X", [1000]⟩] [⟨1000, 1⟩] (1/5) 1,
      ∃ e ∈ ([⟨"X", [1000]⟩] : List TheoreticalEntry), row.species = e.species ∧
        row.count = matchCount e.masses [⟨1000, 1⟩] (1/5) ∧ row.totalPeaks = 1) ∧
    List.Pairwise (fun a b : MatchRow => b.count ≤ a.count)
      (run_species_comparison [⟨"X", [1000]⟩] [⟨1000, 1⟩] (1/5) 1) ∧
    run_species_comparison [⟨"X", [1000]⟩] [⟨1000, 1⟩] (1/5) 1 ≠ []) :=
  ⟨by decide, run_species_comparison_spec [⟨"X", [1000]⟩] [⟨1000, 1⟩] (1/5) 1
    (by decide)⟩

/-- C2: for every valid mass window (min ≤ max), every theoretical mass in
any entry returned by the loader and every experimental peak mass in the
table returned by the reader lies within the inclusive range [min, max]. -/
theorem loader_reader_masses_in_window (files : List (String × List RawRow))
    (rows : List RawRow) (mn mx : ℚ) (h : mn ≤ mx) :
    (∀ e ∈ load_theoretical_core files (mn, mx), ∀ m ∈ e.masses,
      mn ≤ m ∧ m ≤ mx) ∧
    (∀ peaks, read_exp_pmf rows (mn, mx) = Except.ok peaks →
      ∀ p ∈ peaks, mn ≤ p.mass ∧ p.mass ≤ mx) := by
  constructor
  · intro e he m hm
    simp only [load_theoretical_core, List.mem_map] at he
    obtain ⟨f, hf, rfl⟩ := he
    simp only [List.mem_filter, inRange, Bool.and_eq_true,
      decide_eq_true_eq] at hm
    exact hm.2
  · intro peaks hpeaks p hp
    by_cases hz : parsedRows rows = []
    · simp only [read_exp_pmf, hz, if_pos] at hpeaks
      exact absurd hpeaks (by simp)
    · simp only [read_exp_pmf, hz, if_neg, not_false_iff,
        Except.ok.injEq] at hpeaks
      subst hpeaks
      simp only [List.mem_filter, inRange, Bool.and_eq_true,
        decide_eq_true_eq] at hp
      exact hp.2

/-- Witness for C2 on a one-file database and a one-row upload inside the
default window [800, 3500]. -/
theorem loader_reader_masses_in_window_witness :
    ((800 : ℚ) ≤ 3500) ∧
    ((∀ e ∈ load_theoretical_core [("cow", [RawRow.valid 1000 1])] (800, 3500),
      ∀ m ∈ e.masses, (800 : ℚ) ≤ m ∧ m ≤ 3500) ∧
    (∀ peaks, read_exp_pmf [RawRow.valid 900 1] (800, 3500) = Except.ok peaks →
      ∀ p ∈ peaks, (800 : ℚ) ≤ p.mass ∧ p.mass ≤ 3500)) :=
  ⟨by decide, loader_reader_masses_in_window [("cow", [RawRow.valid 1000 1])]
    [RawRow.valid 900 1] 800 3500 (by decide)⟩

/-- C3: on an empty experimental peak table the Engine still returns one row
per species, every row with match count 0, and the table is sorted; no error
is possible since the function is total. -/
theorem run_species_comparison_empty_table (entries : List TheoreticalEntry)
    (tol : ℚ) (total : Nat) :
    (∀ row ∈ run_species_comparison entries [] tol total, row.count = 0) ∧
    ((run_species_comparison entries [] tol total).map
        (fun r => r.species)).Perm (entries.map fun e => e.species) ∧
    List.Pairwise (fun a b : MatchRow => b.count ≤ a.count)
      (run_species_comparison entries [] tol total) := by
  refine ⟨?_, process_all_species_species_perm entries [] tol total,
    process_all_species_sorted entries [] tol total⟩
  intro row hrow
  have hrow2 : row ∈ process_all_species entries [] tol total := hrow
  rw [(process_all_species_perm entries [] tol total).mem_iff,
    List.mem_map] at hrow2
  obtain ⟨e, he, rfl⟩ := hrow2
  simp [matchCount]

/-- C4 counterexample: with an existing one-species database, the invalid
mass window (10, 0) (min > max) and the non-positive tolerance -1, the app
does not report a configuration error: it proceeds through loading, parsing
and matching and produces a result table. -/
theorem config_error_not_reported_counterexample :
    main_app (some [("cow", [RawRow.valid 1000 1])]) (10, 0) (-1)
        (some ⟨[RawRow.valid 900 1], 1⟩)
      = AppOutcome.results [⟨"cow", 0, 0⟩]
          [["species", "matches", "totalPeaks"], ["cow", "0", "0"]] 0 ∧
    main_app (some [("cow", [RawRow.valid 1000 1])]) (10, 0) (-1)
        (some ⟨[RawRow.valid 900 1], 1⟩) ≠ AppOutcome.warnMissingDb := by
  have key : main_app (some [("cow", [RawRow.valid 1000 1])]) (10, 0) (-1)
      (some ⟨[RawRow.valid 900 1], 1⟩)
      = AppOutcome.results
          ((List.mergeSort [(⟨"cow", 0, 0⟩ : MatchRow)] rowLE).take 20)
          (to_csv false (List.mergeSort [(⟨"cow", 0, 0⟩ : MatchRow)] rowLE))
          0 := rfl
  rw [key, List.mergeSort_singleton]
  exact ⟨rfl, fun h => AppOutcome.noConfusion h⟩

/-- C4 amended: only a missing database directory is checked and reported
before processing; the mass window and the tolerance are passed through
unvalidated, so for every window (min > max included) and every tolerance
(non-positive included) the app never emits the pre-processing report when
the directory exists. -/
theorem config_validation_amended (files : List (String × List RawRow))
    (r : ℚ × ℚ) (th : ℚ) (up : Option UploadedFile) :
    main_app none r th up = AppOutcome.warnMissingDb ∧
    main_app (some files) r th up ≠ AppOutcome.warnMissingDb := by
  refine ⟨rfl, ?_⟩
  cases up with
  | none =>
    have key : main_app (some files) r th none
        = (if load_theoretical_core files r = [] then AppOutcome.errorNoCsv
           else AppOutcome.awaitingUpload) := rfl
    rw [key]
    split
    · intro h; exact AppOutcome.noConfusion h
    · intro h; exact AppOutcome.noConfusion h
  | some f =>
    have key : main_app (some files) r th (some f)
        = (if load_theoretical_core files r = [] then AppOutcome.errorNoCsv
           else
             match (read_experimental_pmf f r).1 with
             | Except.error e => AppOutcome.analysisError e
             | Except.ok dfn =>
               AppOutcome.results
                 (display_results (run_species_comparison
                   (load_theoretical_core files r) dfn.1 th dfn.2)).1
                 (display_results (run_species_comparison
                   (load_theoretical_core files r) dfn.1 th dfn.2)).2
                 dfn.2) := rfl
    rw [key]
    split
    · intro h; exact AppOutcome.noConfusion h
    · split
      · intro h; exact AppOutcome.noConfusion h
      · intro h; exact AppOutcome.noConfusion h

/-- C5: a file whose parsing yields zero usable rows makes the reader fail
with a reportable error, which is distinguishable from the successful
empty-table result produced when parsing succeeds but the window filters
every peak out. -/
theorem reader_distinguishes_unparsable (r : ℚ × ℚ)
    (rows goodRows : List RawRow) (hnone : parsedRows rows = [])
    (hsome : parsedRows goodRows ≠ []) :
    read_exp_pmf rows r = Except.error "no parseable rows" ∧
    (∃ peaks, read_exp_pmf goodRows r = Except.ok peaks) ∧
    (∀ peaks, read_exp_pmf rows r ≠ Except.ok peaks) := by
  refine ⟨?_, ?_, ?_⟩
  · simp [read_exp_pmf, hnone]
  · refine ⟨(parsedRows goodRows).filter (fun p => inRange r p.mass), ?_⟩
    simp [read_exp_pmf, hsome]
  · intro peaks h
    rw [show read_exp_pmf rows r = Except.error "no parseable rows" from
      by simp [read_exp_pmf, hnone]] at h
    exact Except.noConfusion h

/-- Witness for C5: a header-only upload (its single row is non-numeric)
errors, while a parsable upload whose only peak lies outside the window
[800, 3500] succeeds with an empty table. -/
theorem reader_distinguishes_unparsable_witness :
    (parsedRows [RawRow.malformed] = []) ∧
    (parsedRows [RawRow.valid 5000 1] ≠ []) ∧
    (read_exp_pmf [RawRow.malformed] (800, 3500)
        = Except.error "no parseable rows" ∧
    (∃ peaks, read_exp_pmf [RawRow.valid 5000 1] (800, 3500)
        = Except.ok peaks) ∧
    (∀ peaks, read_exp_pmf [RawRow.malformed] (800, 3500)
        ≠ Except.ok peaks)) :=
  ⟨by decide, by decide, reader_distinguishes_unparsable (800, 3500)
    [RawRow.malformed] [RawRow.valid 5000 1] (by decide) (by decide)⟩

/-- C6: for a database directory that does not exist, the loading wrapper
returns None and the app's main flow stops at the warning outcome, so no
parsing or matching is attempted and no exception is raised (the model is a
total function). -/
theorem missing_directory_reports_no_data (r : ℚ × ℚ) (th : ℚ)
    (up : Option UploadedFile) :
    load_theoretical_data none r = none ∧
    main_app none r th up = AppOutcome.warnMissingDb :=
  ⟨rfl, rfl⟩

/-- C7: the Engine is a pure function of (database, experimental table,
tolerance, total), so two runs on the same input produce identical
ResultTables — in particular tied species keep the same relative order on
every repeated run. -/
theorem run_species_comparison_deterministic (entries : List TheoreticalEntry)
    (peaks : List ExperimentalPeak) (tol : ℚ) (total : Nat) :
    run_species_comparison entries peaks tol total
      = run_species_comparison entries peaks tol total ∧
    ∀ res₁ res₂ : List MatchRow,
      res₁ = run_species_comparison entries peaks tol total →
      res₂ = run_species_comparison entries peaks tol total →
      res₁ = res₂ :=
  ⟨rfl, fun _ _ h₁ h₂ => h₁.trans h₂.symm⟩

/-- Witness for C7: two runs on a concrete one-species input coincide. -/
theorem run_species_comparison_deterministic_witness :
    run_species_comparison [⟨"X", [1000]⟩] [⟨1000, 1⟩] (1/5) 1
      = run_species_comparison [⟨"X", [1000]⟩] [⟨1000, 1⟩] (1/5) 1 :=
  (run_species_comparison_deterministic [⟨"X", [1000]⟩] [⟨1000, 1⟩]
    (1/5) 1).2
    (run_species_comparison [⟨"X", [1000]⟩] [⟨1000, 1⟩] (1/5) 1)
    (run_species_comparison [⟨"X", [1000]⟩] [⟨1000, 1⟩] (1/5) 1) rfl rfl

/-- C8: the match count of a species is unchanged under any permutation of
its theoretical mass list and any permutation of the experimental peak
table. -/
theorem matchCount_perm_invariant (masses masses2 : List ℚ)
    (peaks peaks2 : List ExperimentalPeak) (tol : ℚ)
    (hm : masses.Perm masses2) (hp : peaks.Perm peaks2) :
    matchCount masses peaks tol = matchCount masses2 peaks2 tol := by
  have hfun : peakMatches masses tol = peakMatches masses2 tol := by
    funext p
    rw [Bool.eq_iff_iff]
    simp only [peakMatches, List.any_eq_true]
    constructor
    · rintro ⟨t, ht, hle⟩
      exact ⟨t, hm.mem_iff.mp ht, hle⟩
    · rintro ⟨t, ht, hle⟩
      exact ⟨t, hm.mem_iff.mpr ht, hle⟩
  unfold matchCount
  rw [hfun]
  exact hp.countP_eq _

/-- Witness for C8: swapping both the two theoretical masses and the two
experimental peaks leaves the match count unchanged. -/
theorem matchCount_perm_invariant_witness :
    (([1000, 1500] : List ℚ).Perm [1500, 1000]) ∧
    (([⟨1000, 1⟩, ⟨2000, 1⟩] : List ExperimentalPeak).Perm
      [⟨2000, 1⟩, ⟨1000, 1⟩]) ∧
    matchCount [1000, 1500] [⟨1000, 1⟩, ⟨2000, 1⟩] (1/5)
      = matchCount [1500, 1000] [⟨2000, 1⟩, ⟨1000, 1⟩] (1/5) :=
  ⟨by decide, by decide,
    matchCount_perm_invariant [1000, 1500] [1500, 1000]
      [⟨1000, 1⟩, ⟨2000, 1⟩] [⟨2000, 1⟩, ⟨1000, 1⟩] (1/5)
      (by decide) (by decide)⟩

/-- C9: the displayed table is exactly the first 20 rows of the ranked
ResultTable, the exported CSV is the header followed by one line per row of
the full table with no index column, and the displayed rows are a prefix
(the 20-element take) of the exported data lines. -/
theorem display_results_spec (rows : List MatchRow) :
    (display_results rows).1 = rows.take 20 ∧
    (display_results rows).2 = csvHeader :: rows.map rowCells ∧
    ((display_results rows).1).map rowCells = (rows.map rowCells).take 20 := by
  refine ⟨rfl, ?_, ?_⟩
  · show to_csv false rows = csvHeader :: rows.map rowCells
    unfold to_csv
    simp only [Bool.false_eq_true, if_false]
    congr 1
    rw [show (fun ir : ℕ × MatchRow => rowCells ir.2)
        = rowCells ∘ Prod.snd from rfl]
    rw [← List.map_map, List.enum_map_snd]
  · show (rows.take 20).map rowCells = (rows.map rowCells).take 20
    exact List.map_take rowCells rows 20

/-- Unfolding equation for the reader wrapper. -/
theorem read_experimental_pmf_eq (f : UploadedFile) (r : ℚ × ℚ) :
    read_experimental_pmf f r
      = match read_exp_pmf f.contents r with
        | Except.error e =>
            (Except.error e, ⟨f.contents, f.contents.length⟩)
        | Except.ok df =>
            (Except.ok (df, df.length), ⟨f.contents, f.contents.length⟩) :=
  rfl

/-- The reader never changes the stream's contents, only its position. -/
theorem read_experimental_pmf_contents (f : UploadedFile) (r : ℚ × ℚ) :
    ((read_experimental_pmf f r).2).contents = f.contents := by
  rw [read_experimental_pmf_eq f r]
  cases read_exp_pmf f.contents r with
  | error e => rfl
  | ok df => rfl

/-- The reader's parse result depends only on the stream's contents, not on
its position, because of the initial rewind. -/
theorem read_experimental_pmf_fst_congr (g₁ g₂ : UploadedFile) (r : ℚ × ℚ)
    (h : g₁.contents = g₂.contents) :
    (read_experimental_pmf g₁ r).1 = (read_experimental_pmf g₂ r).1 := by
  cases g₁ with
  | mk c₁ p₁ =>
    cases g₂ with
    | mk c₂ p₂ =>
      have h2 : c₁ = c₂ := h
      subst h2
      rfl

/-- C10: `read_experimental_pmf` rewinds the stream before parsing, so a
second call on the already-consumed file object returns the same result, and
the returned total peak count always equals the length of the returned peak
table. -/
theorem read_experimental_pmf_rewind_and_count (f : UploadedFile)
    (r : ℚ × ℚ) :
    (read_experimental_pmf f r).1
      = (read_experimental_pmf ((read_experimental_pmf f r).2) r).1 ∧
    ∀ (df : List ExperimentalPeak) (n : Nat),
      (read_experimental_pmf f r).1 = Except.ok (df, n) → n = df.length := by
  constructor
  · exact read_experimental_pmf_fst_congr f ((read_experimental_pmf f r).2) r
      (read_experimental_pmf_contents f r).symm
  · intro df n h
    rw [read_experimental_pmf_eq f r] at h
    cases hres : read_exp_pmf f.contents r with
    | error e =>
      rw [hres] at h
      simp at h
    | ok d =>
      rw [hres] at h
      simp only [Except.ok.injEq, Prod.mk.injEq] at h
      obtain ⟨h1, h2⟩ := h
      subst h1
      exact h2.symm

/-- Witness for C10: an uploaded file whose position sits at the end of its
single data row; the count returned with the parsed table is its length. -/
theorem read_experimental_pmf_rewind_and_count_witness :
    ((read_experimental_pmf ⟨[RawRow.valid 900 1], 1⟩ (800, 3500)).1
      = (read_experimental_pmf
          ((read_experimental_pmf ⟨[RawRow.valid 900 1], 1⟩ (800, 3500)).2)
          (800, 3500)).1) ∧
    (1 : Nat) = ([(⟨900, 1⟩ : ExperimentalPeak)]).length :=
  ⟨(read_experimental_pmf_rewind_and_count ⟨[RawRow.valid 900 1], 1⟩
      (800, 3500)).1,
   (read_experimental_pmf_rewind_and_count ⟨[RawRow.valid 900 1], 1⟩
      (800, 3500)).2 [⟨900, 1⟩] 1 (by rfl)⟩

end SifWebApp
